import Mathlib

/-!
# Verification of the UBX protocol decoding core of PyGPSClient

The repository's `src/pygpsclient/ubx_handler.py` is a handler over the
`pyubx2` library: byte-level frame parsing (preamble scan, checksum
validation, payload field extraction) is performed by `pyubx2`, whose code is
not part of the repository; the handler performs message dispatch, fixed-point
scaling and state updates.  Accordingly:

* definitions for the byte level (checksum, frame scanning, identity lookup,
  NAV-SVINFO repeating-group decode, poll serialization) are modelled from the
  specification and marked `Modelled from the spec:`;
* definitions for the handler level (`process_data` dispatch, the
  `_process_*` routines, `msgclass2bytes`, `poll_ubx_config`) are translated
  from the source.

Bytes are modelled as `Nat` values, with `< 256` hypotheses where the
arithmetic needs them.  Python float division is modelled over `ℚ`.
-/

namespace PyGPSClient

/-- Modelled from the spec: the running two-byte Fletcher-like UBX checksum
(pyubx2's checksum routine, not in `src/`).  The first component accumulates
each byte mod 256; the second accumulates the first after every byte. -/
def ckSum (bs : List Nat) : Nat × Nat :=
  bs.foldl (fun ab x => ((ab.1 + x) % 256, (ab.2 + (ab.1 + x) % 256) % 256)) (0, 0)

/-- Modelled from the spec: a raw UBX frame after the two-byte preamble:
class, id, little-endian u16 length (implicit as `payload.length`), payload,
and the two trailing stored checksum bytes. -/
structure Frame where
  msgCls : Nat
  msgId : Nat
  payload : List Nat
  ckA : Nat
  ckB : Nat
deriving DecidableEq, Repr

/-- The byte sequence the checksum ranges over: class, id, the two
little-endian length bytes, then the payload. -/
def Frame.body (f : Frame) : List Nat :=
  f.msgCls :: f.msgId :: (f.payload.length % 256) :: (f.payload.length / 256) :: f.payload

/-- Modelled from the spec: a frame passes validation when the computed
checksum over class, id, length and payload equals the stored two bytes. -/
def Frame.checksumOK (f : Frame) : Bool :=
  decide (ckSum f.body = (f.ckA, f.ckB))

/-- Modelled from the spec: the error taxonomy of the decoding core. -/
inductive UBXError where
  | ChecksumError
  | IncompleteFrame
  | TruncatedPayload
  | GroupSizeMismatch
deriving DecidableEq, Repr

/-- The semantic record variants the handler consumes.  Field names follow the
pyubx2 attribute names read by `ubx_handler.py`; byte payloads of identities
whose field layout the handler never inspects are carried opaquely
(`knownRec`), and unknown identities are carried as `raw`. -/
inductive SemanticRecord where
  | ackAck (clsID msgID : Nat)
  | ackNak (clsID msgID : Nat)
  | cfgMsg (msgClass msgID rateDDC rateUART1 rateUART2 rateUSB rateSPI : Nat)
  | cfgPrt (baudRate : Nat) (inProtoMask outProtoMask : List Nat)
  | cfgInf
  | navPosLLH (iTOW : Nat) (lat lon hMSL hAcc vAcc : Int)
  | navPvt (iTOW : Nat) (year month day hour min second : Nat) (fixType numSV : Nat)
      (lat lon hMSL hAcc vAcc gSpeed headMot : Int) (pDOP : Nat)
  | navVelned (gSpeed heading : Int)
  | navSvinfo (numCh : Nat) (sats : List (Nat × Int × Int × Nat))
  | navSol (gpsFix numSV pDOP : Nat)
  | navDop (pDOP hDOP vDOP : Nat)
  | monVer (swVersion hwVersion : Option (List Nat)) (extensions : List (Option (List Nat)))
  | knownRec (name : String) (payload : List Nat)
  | raw (msgCls msgId : Nat) (payload : List Nat)
deriving DecidableEq, Repr

/-- Modelled from the spec: the static identity lookup table (pyubx2's
`UBX_MSGIDS`, not in `src/`), keyed by the two class/id bytes and restricted
to the identities the handler dispatches on. -/
def UBX_MSGIDS : List (List Nat × String) :=
  [([0x05, 0x01], "ACK-ACK"), ([0x05, 0x00], "ACK-NAK"),
   ([0x06, 0x01], "CFG-MSG"), ([0x06, 0x00], "CFG-PRT"), ([0x06, 0x02], "CFG-INF"),
   ([0x01, 0x02], "NAV-POSLLH"), ([0x01, 0x07], "NAV-PVT"), ([0x01, 0x12], "NAV-VELNED"),
   ([0x01, 0x30], "NAV-SVINFO"), ([0x01, 0x06], "NAV-SOL"), ([0x01, 0x04], "NAV-DOP"),
   ([0x0A, 0x04], "MON-VER")]

/-- Look a two-byte key up in an identity table. -/
def tblLookup (tbl : List (List Nat × String)) (k : List Nat) : Option String :=
  (tbl.find? (fun e => e.1 == k)).map (fun e => e.2)

/-- Resolve a (class, id) pair to a message name, `none` when unknown. -/
def lookupIdentity (c i : Nat) : Option String :=
  tblLookup UBX_MSGIDS [c, i]

/-- Little-endian unsigned integer from a byte list (Python int.from_bytes). -/
def leUInt (bs : List Nat) : Nat :=
  bs.foldr (fun b acc => b + 256 * acc) 0

/-- A byte reinterpreted as a signed 8-bit integer. -/
def asI8 (b : Nat) : Int :=
  if b < 128 then (b : Int) else (b : Int) - 256

/-- A 16-bit value reinterpreted as a signed 16-bit integer. -/
def asI16 (v : Nat) : Int :=
  if v < 32768 then (v : Int) else (v : Int) - 65536

/-- Modelled from the spec: one fixed-size (12-byte) per-satellite item of a
NAV-SVINFO payload, reduced to the (svid, elev, azim, cno) tuple the handler
extracts: svid at offset 1, cno at 4, signed elevation at 5, signed
little-endian azimuth at 6..7 within the item. -/
def svinfoItem (payload : List Nat) (i : Nat) : Nat × Int × Int × Nat :=
  let o := 8 + 12 * i
  (payload.getD (o + 1) 0, asI8 (payload.getD (o + 5) 0),
   asI16 (leUInt [payload.getD (o + 6) 0, payload.getD (o + 7) 0]),
   payload.getD (o + 4) 0)

/-- Modelled from the spec: the NAV-SVINFO repeating-group decode (pyubx2, not
in `src/`): an 8-byte header (iTOW u32, numCh u8 at offset 4, globalFlags,
reserved2), then `numCh` fixed-size 12-byte items; the declared payload length
must equal header-length + count times item-size, else `GroupSizeMismatch`. -/
def decodeNAVSVINFO (payload : List Nat) : Except UBXError SemanticRecord :=
  if 8 ≤ payload.length then
    let numCh := payload.getD 4 0
    if payload.length = 8 + numCh * 12 then
      Except.ok (.navSvinfo numCh ((List.range numCh).map (svinfoItem payload)))
    else Except.error .GroupSizeMismatch
  else Except.error .TruncatedPayload

/-- Modelled from the spec: dispatch a checksum-valid frame by identity.
Unknown identities decode to `raw` carrying the payload unchanged; NAV-SVINFO
is decoded at byte level (the one repeating-group identity the claims
exercise); the remaining known identities carry their payload opaquely, since
the handler-level claims take their already-decoded records as given. -/
def dispatchFrame (f : Frame) : Except UBXError SemanticRecord :=
  match lookupIdentity f.msgCls f.msgId with
  | none => Except.ok (.raw f.msgCls f.msgId f.payload)
  | some name =>
      if name = "NAV-SVINFO" then decodeNAVSVINFO f.payload
      else Except.ok (.knownRec name f.payload)

/-- Modelled from the spec: parse one frame — validate the checksum, then
dispatch; a frame failing the checksum is never decoded into a record. -/
def parseFrame (f : Frame) : Except UBXError SemanticRecord :=
  if f.checksumOK then dispatchFrame f else Except.error .ChecksumError

/-! ## Checksum lemmas -/

/-- The first checksum byte of the fold is the byte sum mod 256. -/
theorem ckSum_foldl_fst (bs : List Nat) :
    ∀ a b : Nat, a < 256 →
      (bs.foldl (fun ab x => ((ab.1 + x) % 256, (ab.2 + (ab.1 + x) % 256) % 256)) (a, b)).1
        = (a + bs.sum) % 256 := by
  induction bs with
  | nil =>
      intro a b ha
      simp [Nat.mod_eq_of_lt ha]
  | cons x xs ih =>
      intro a b ha
      simp only [List.foldl_cons, List.sum_cons]
      rw [ih ((a + x) % 256) _ (Nat.mod_lt _ (by omega))]
      omega

/-- The first component of `ckSum` is the byte sum mod 256. -/
theorem ckSum_fst (bs : List Nat) : (ckSum bs).1 = bs.sum % 256 := by
  have h := ckSum_foldl_fst bs 0 0 (by omega)
  simpa [ckSum] using h

/-- Setting one element shifts the sum by the difference of old and new. -/
theorem sum_set (l : List Nat) :
    ∀ i b : Nat, i < l.length → (l.set i b).sum + l.getD i 0 = l.sum + b := by
  induction l with
  | nil => intro i b h; simp at h
  | cons x xs ih =>
      intro i b h
      cases i with
      | zero => simp [List.set]; omega
      | succ j =>
          have hj : j < xs.length := by simpa using h
          have := ih j b hj
          simp only [List.set, List.sum_cons, List.getD_cons_succ]
          omega

/-- Flipping one payload byte of a checksum-valid frame to a different byte
value breaks the checksum. -/
theorem checksumOK_flip_payload (f : Frame) (i b : Nat)
    (hok : f.checksumOK = true) (hi : i < f.payload.length)
    (hold : f.payload.getD i 0 < 256) (hb : b < 256)
    (hne : b ≠ f.payload.getD i 0) :
    Frame.checksumOK { f with payload := f.payload.set i b } = false := by
  have h1 : ckSum f.body = (f.ckA, f.ckB) := of_decide_eq_true hok
  have hs : (Frame.body { f with payload := f.payload.set i b }).sum
      + f.payload.getD i 0 = f.body.sum + b := by
    have h2 := sum_set f.payload i b hi
    simp only [Frame.body, List.sum_cons, List.length_set]
    omega
  have hne2 : (Frame.body { f with payload := f.payload.set i b }).sum % 256
      ≠ f.body.sum % 256 := by omega
  unfold Frame.checksumOK
  apply decide_eq_false
  intro heq
  apply hne2
  calc (Frame.body { f with payload := f.payload.set i b }).sum % 256
      = (ckSum (Frame.body { f with payload := f.payload.set i b })).1 :=
        (ckSum_fst _).symm
    _ = f.ckA := by rw [heq]
    _ = (ckSum f.body).1 := by rw [h1]
    _ = f.body.sum % 256 := ckSum_fst _

/-- Flipping the first stored checksum byte of a valid frame breaks the
checksum. -/
theorem checksumOK_flip_ckA (f : Frame) (a : Nat)
    (hok : f.checksumOK = true) (hne : a ≠ f.ckA) :
    Frame.checksumOK { f with ckA := a } = false := by
  have h1 : ckSum f.body = (f.ckA, f.ckB) := of_decide_eq_true hok
  unfold Frame.checksumOK
  apply decide_eq_false
  intro heq
  have hbody : Frame.body { f with ckA := a } = f.body := rfl
  rw [hbody, h1] at heq
  exact hne (congrArg Prod.fst heq).symm

/-- Flipping the second stored checksum byte of a valid frame breaks the
checksum. -/
theorem checksumOK_flip_ckB (f : Frame) (b : Nat)
    (hok : f.checksumOK = true) (hne : b ≠ f.ckB) :
    Frame.checksumOK { f with ckB := b } = false := by
  have h1 : ckSum f.body = (f.ckA, f.ckB) := of_decide_eq_true hok
  unfold Frame.checksumOK
  apply decide_eq_false
  intro heq
  have hbody : Frame.body { f with ckB := b } = f.body := rfl
  rw [hbody, h1] at heq
  exact hne (congrArg Prod.snd heq).symm

/-- C1.  A frame whose stored checksum does not match the Fletcher-like sum
over class, id, length and payload signals `ChecksumError` and never yields a
record; an unmodified checksum-valid frame always passes the checksum gate;
and flipping any single payload byte, or either stored checksum byte, of a
valid frame causes `ChecksumError`. -/
theorem checksum_validation_spec :
    (∀ f : Frame, f.checksumOK = true → parseFrame f = dispatchFrame f) ∧
    (∀ f : Frame, f.checksumOK = false →
      parseFrame f = Except.error UBXError.ChecksumError ∧
        ∀ r : SemanticRecord, parseFrame f ≠ Except.ok r) ∧
    (∀ f : Frame, ∀ i b : Nat, f.checksumOK = true → i < f.payload.length →
      f.payload.getD i 0 < 256 → b < 256 → b ≠ f.payload.getD i 0 →
      parseFrame { f with payload := f.payload.set i b }
        = Except.error UBXError.ChecksumError) ∧
    (∀ f : Frame, ∀ a : Nat, f.checksumOK = true → a ≠ f.ckA →
      parseFrame { f with ckA := a } = Except.error UBXError.ChecksumError) ∧
    (∀ f : Frame, ∀ b : Nat, f.checksumOK = true → b ≠ f.ckB →
      parseFrame { f with ckB := b } = Except.error UBXError.ChecksumError) := by
  refine ⟨fun f hok => by simp [parseFrame, hok],
          fun f hbad => ⟨by simp [parseFrame, hbad], fun r h => by
            simp [parseFrame, hbad] at h⟩,
          fun f i b hok hi hold hb hne => ?_,
          fun f a hok hne => ?_,
          fun f b hok hne => ?_⟩
  · have := checksumOK_flip_payload f i b hok hi hold hb hne
    simp [parseFrame, this]
  · have := checksumOK_flip_ckA f a hok hne
    simp [parseFrame, this]
  · have := checksumOK_flip_ckB f b hok hne
    simp [parseFrame, this]

/-- Witness for C1 at the concrete valid frame with class 1, id 2, payload
[5] and checksum (9, 21): the unmodified frame passes; flipping the payload
byte to 6, the first checksum byte to 10, or the second to 22, each signals
`ChecksumError`. -/
theorem checksum_validation_spec_witness :
    parseFrame ⟨1, 2, [5], 9, 21⟩ = dispatchFrame ⟨1, 2, [5], 9, 21⟩ ∧
    parseFrame ⟨1, 2, [6], 9, 21⟩ = Except.error UBXError.ChecksumError ∧
    parseFrame ⟨1, 2, [5], 10, 21⟩ = Except.error UBXError.ChecksumError ∧
    parseFrame ⟨1, 2, [5], 9, 22⟩ = Except.error UBXError.ChecksumError :=
  ⟨checksum_validation_spec.1 ⟨1, 2, [5], 9, 21⟩ (by decide),
   checksum_validation_spec.2.2.1 ⟨1, 2, [5], 9, 21⟩ 0 6 (by decide) (by decide)
     (by decide) (by decide) (by decide),
   checksum_validation_spec.2.2.2.1 ⟨1, 2, [5], 9, 21⟩ 10 (by decide) (by decide),
   checksum_validation_spec.2.2.2.2 ⟨1, 2, [5], 9, 21⟩ 22 (by decide) (by decide)⟩

/-! ## Handler layer, translated from `src/pygpsclient/ubx_handler.py` -/

/-- The Python exception classes the handler code can raise or catch. -/
inductive PyError where
  | TypeError
  | ValueError
  | AttributeError
  | KeyError
  | OverflowError
deriving DecidableEq, Repr

/-- The mutable state of `UBXHandler` (from `__init__`), restricted to the
fields the rest of the file reads or writes.  The GUI references and the
fields `_raw_data`, `_parsed_data`, `_record_track` are set at construction
and never touched again in the file, so they are omitted.  Python float
values are modelled over `ℚ`.  `utc` holds the `itow2utc` conversion result,
represented by the raw time-of-week (initially the empty string in Python,
modelled as 0). -/
structure HState where
  gsv_data : List (Nat × Int × Int × Nat)
  lon : ℚ
  lat : ℚ
  alt : ℚ
  track : ℚ
  speed : ℚ
  pdop : ℚ
  hdop : ℚ
  vdop : ℚ
  hacc : ℚ
  vacc : ℚ
  utc : Nat
  sip : Nat
  fix : String
  ubx_baudrate : Nat
  ubx_inprot : Nat
  ubx_outprot : Nat
deriving DecidableEq, Repr

/-- The state `UBXHandler.__init__` establishes. -/
def initState : HState :=
  { gsv_data := [], lon := 0, lat := 0, alt := 0, track := 0, speed := 0,
    pdop := 0, hdop := 0, vdop := 0, hacc := 0, vacc := 0, utc := 0, sip := 0,
    fix := "-", ubx_baudrate := 9600, ubx_inprot := 7, ubx_outprot := 3 }

/-- Modelled from the spec: pyubx2's GPS time-of-week to UTC conversion
(`UBXMessage.itow2utc`, not in `src/`); the conversion itself is irrelevant to
every claim, so the result is represented by the raw time-of-week value. -/
def itow2utc (iTOW : Nat) : Nat := iTOW

/-- Source `UBXHandler.msgclass2bytes`: each of class and id converted by Python
`int.to_bytes(1, byteorder=little, signed=False)`, which raises
`OverflowError` outside 0..255, then concatenated. -/
def msgclass2bytes (msgClass msgID : Nat) : Except PyError (List Nat) :=
  if msgClass < 256 then
    if msgID < 256 then Except.ok [msgClass, msgID]
    else Except.error PyError.OverflowError
  else Except.error PyError.OverflowError

/-- Modelled from the spec: pyubx2's `UBX_CONFIG_MESSAGES` table (not in
`src/`), restricted to a representative set; a key outside the table raises
`KeyError` in Python. -/
def UBX_CONFIG_MESSAGES : List (List Nat × String) :=
  [([0x01, 0x02], "NAV-POSLLH"), ([0x01, 0x07], "NAV-PVT"),
   ([0x01, 0x12], "NAV-VELNED"), ([0x01, 0x30], "NAV-SVINFO"),
   ([0x01, 0x06], "NAV-SOL"), ([0x01, 0x04], "NAV-DOP")]

/-- Source `UBXHandler._process_ACK_ACK`: resolves the acknowledged message type via
`UBX_MSGIDS[msgclass2bytes(clsID, msgID)]` (a missing key raises `KeyError`,
uncaught), then updates the config panel (external collaborator); no handler
state changes. -/
def process_ACK_ACK (s : HState) (clsID msgID : Nat) : Except PyError HState :=
  match msgclass2bytes clsID msgID with
  | Except.error e => Except.error e
  | Except.ok key =>
      match tblLookup UBX_MSGIDS key with
      | none => Except.error PyError.KeyError
      | some _ => Except.ok s

/-- Source `UBXHandler._process_ACK_NAK`: identical shape to `_process_ACK_ACK`. -/
def process_ACK_NAK (s : HState) (clsID msgID : Nat) : Except PyError HState :=
  match msgclass2bytes clsID msgID with
  | Except.error e => Except.error e
  | Except.ok key =>
      match tblLookup UBX_MSGIDS key with
      | none => Except.error PyError.KeyError
      | some _ => Except.ok s

/-- Source `UBXHandler._process_CFG_MSG`: resolves the message type in
`UBX_CONFIG_MESSAGES`, reads the per-port rates, updates the config panel
(external); no handler state changes. -/
def process_CFG_MSG (s : HState) (msgClass msgID : Nat) : Except PyError HState :=
  match msgclass2bytes msgClass msgID with
  | Except.error e => Except.error e
  | Except.ok key =>
      match tblLookup UBX_CONFIG_MESSAGES key with
      | none => Except.error PyError.KeyError
      | some _ => Except.ok s

/-- Source `UBXHandler._process_CFG_PRT`: stores the baud rate and the little-endian
protocol masks (`int.from_bytes(..., little, unsigned)`). -/
def process_CFG_PRT (s : HState) (baudRate : Nat) (inProtoMask outProtoMask : List Nat) :
    Except PyError HState :=
  Except.ok { s with ubx_baudrate := baudRate,
                     ubx_inprot := leUInt inProtoMask,
                     ubx_outprot := leUInt outProtoMask }

/-- Source `UBXHandler._process_NAV_POSLLH`: fixed-point scaling of the decoded
integers — lat/lon divided by 10^7 into degrees, heights/accuracies divided
by 1000 into meters; banner and map updates are external. -/
def process_NAV_POSLLH (s : HState) (iTOW : Nat) (lat lon hMSL hAcc vAcc : Int) :
    Except PyError HState :=
  Except.ok { s with utc := itow2utc iTOW,
                     lat := (lat : ℚ) / 10 ^ 7,
                     lon := (lon : ℚ) / 10 ^ 7,
                     alt := (hMSL : ℚ) / 1000,
                     hacc := (hAcc : ℚ) / 1000,
                     vacc := (vAcc : ℚ) / 1000 }

/-- Source `UBXHandler._process_NAV_PVT`: scaling as in `_process_NAV_POSLLH` plus
pDOP divided by 100, ground speed mm/s divided by 1000 into m/s, heading of
motion divided by 10^5 into degrees; the fix string, banner, map and
trackpoint recording are external (the local `fix` variable is never stored
on the handler). -/
def process_NAV_PVT (s : HState) (iTOW year month day hour min second fixType numSV : Nat)
    (lat lon hMSL hAcc vAcc gSpeed headMot : Int) (pDOP : Nat) :
    Except PyError HState :=
  Except.ok { s with utc := itow2utc iTOW,
                     lat := (lat : ℚ) / 10 ^ 7,
                     lon := (lon : ℚ) / 10 ^ 7,
                     alt := (hMSL : ℚ) / 1000,
                     hacc := (hAcc : ℚ) / 1000,
                     vacc := (vAcc : ℚ) / 1000,
                     pdop := (pDOP : ℚ) / 100,
                     sip := numSV,
                     speed := (gSpeed : ℚ) / 1000,
                     track := (headMot : ℚ) / 10 ^ 5 }

/-- Source `UBXHandler._process_NAV_VELNED`: heading divided by 10^5, ground speed
cm/s divided by 100. -/
def process_NAV_VELNED (s : HState) (gSpeed heading : Int) : Except PyError HState :=
  Except.ok { s with track := (heading : ℚ) / 10 ^ 5,
                     speed := (gSpeed : ℚ) / 100 }

/-- Source `UBXHandler._process_NAV_SVINFO`: resets `gsv_data` to empty, then appends
the (svid, elev, azim, cno) tuple of each of the `numCh` satellites, read via
synthesized attribute names `svid_01`, ... (a missing attribute raises
`AttributeError`, which the `except ValueError` does not catch). -/
def process_NAV_SVINFO (s : HState) (numCh : Nat) (sats : List (Nat × Int × Int × Nat)) :
    Except PyError HState :=
  if numCh ≤ sats.length then Except.ok { s with gsv_data := sats.take numCh }
  else Except.error PyError.AttributeError

/-- Source `UBXHandler._process_NAV_SOL`: pDOP divided by 100 and satellite count. -/
def process_NAV_SOL (s : HState) (gpsFix numSV pDOP : Nat) : Except PyError HState :=
  Except.ok { s with pdop := (pDOP : ℚ) / 100, sip := numSV }

/-- Source `UBXHandler._process_NAV_DOP`: the three DOP values divided by 100. -/
def process_NAV_DOP (s : HState) (pDOP hDOP vDOP : Nat) : Except PyError HState :=
  Except.ok { s with pdop := (pDOP : ℚ) / 100,
                     hdop := (hDOP : ℚ) / 100,
                     vdop := (vDOP : ℚ) / 100 }

/-! ## MON-VER string handling (`UBXHandler._process_MON_VER`)

Python `str` values are modelled as `List Char`, `bytes` as `List Nat`.  A
dynamically typed value that may be either (the result of `getattr` with a
default) is a `PyVal`. -/

/-- A Python value that is either a `str` or a `bytes`. -/
inductive PyVal where
  | pyStr (s : List Char)
  | pyBytes (b : List Nat)
deriving DecidableEq, Repr

/-- Python `getattr(data, name, default)` for a bytes-typed attribute: the attribute
when present, the supplied default when absent. -/
def getattrD (v : Option (List Nat)) (dflt : PyVal) : PyVal :=
  match v with
  | some b => PyVal.pyBytes b
  | none => dflt

/-- Python `.replace(b"\x00", b"")`: defined on `bytes`, where it removes
every null byte; applied to a `str` it raises `TypeError` (replace arguments
must be `str`, not `bytes`). -/
def pyReplaceNull : PyVal → Except PyError (List Nat)
  | PyVal.pyBytes b => Except.ok (b.filter (fun x => x ≠ 0))
  | PyVal.pyStr _ => Except.error PyError.TypeError

/-- Python `bytes.decode("utf-8")`.  A failure raises `UnicodeDecodeError`, a
subclass of `ValueError`.  Multi-byte UTF-8 sequences are conservatively
modelled as a decode failure; every input the claims exercise is ASCII. -/
def pyDecodeUtf8 (bs : List Nat) : Except PyError (List Char) :=
  if bs.all (fun b => b < 128) then Except.ok (bs.map Char.ofNat)
  else Except.error PyError.ValueError

/-- Scanning step for `strReplace`, structurally recursive on a fuel bound
(`fuel ≥ s.length` suffices, since every step consumes at least one
character). -/
def strReplaceAux (pat rep : List Char) : Nat → List Char → List Char
  | 0, s => s
  | _ + 1, [] => []
  | fuel + 1, c :: rest =>
    if pat ≠ [] ∧ pat.isPrefixOf (c :: rest) then
      rep ++ strReplaceAux pat rep fuel ((c :: rest).drop pat.length)
    else c :: strReplaceAux pat rep fuel rest

/-- Python `str.replace(old, new)`: replace every non-overlapping occurrence
left to right.  (The source only uses non-empty patterns; an empty pattern
leaves the string unchanged here.) -/
def strReplace (pat rep s : List Char) : List Char :=
  strReplaceAux pat rep s.length s

/-- Python `pat in s` on strings. -/
def strContains (pat : List Char) : List Char → Bool
  | [] => pat.isEmpty
  | c :: rest => pat.isPrefixOf (c :: rest) || strContains pat rest

/-- The arguments `_process_MON_VER` hands to the config panel. -/
structure MonVerUpdate where
  swversion : List Char
  hwversion : List Char
  fwversion : List Char
  protocol : List Char
  gnsssupported : List Char
deriving DecidableEq, Repr

/-- One turn of the extension-scanning loop body of `_process_MON_VER`,
updating the (fw_version, protocol, gnss_supported) accumulator from one
decoded extension string. -/
def scanExtension (acc : List Char × List Char × List Char) (e : List Char) :
    List Char × List Char × List Char :=
  let fw := if strContains "FWVER=".data e then strReplace "FWVER=".data [] e else acc.1
  let prot1 := if strContains "PROTVER=".data e then strReplace "PROTVER=".data [] e
               else acc.2.1
  let prot := if strContains "PROTVER ".data e then strReplace "PROTVER ".data [] e
              else prot1
  let gnss := ["GPS", "GLO", "GAL", "BDS", "SBAS", "IMES", "QZSS"].foldl
    (fun g name => if strContains name.data e then g ++ name.data ++ " ".data else g)
    acc.2.2
  (fw, prot, gnss)

/-- One extension entry: `getattr(data, "extension_0i", b"")` (empty bytes
when absent), null bytes stripped, decoded as text. -/
def monVerExtension (ext : Option (List Nat)) : Except PyError (List Char) := do
  let stripped ← pyReplaceNull (getattrD ext (PyVal.pyBytes []))
  pyDecodeUtf8 stripped

/-- Source `UBXHandler._process_MON_VER` up to the config-panel call: version fields
read with `getattr(..., "n/a")`, null bytes stripped, decoded as UTF-8, the
"ROM CORE"/"EXT CORE" cosmetic renames applied to swVersion, then the four
extension strings are scanned for firmware version, protocol version and
supported GNSS names.  The handler stores nothing on `self`; the result is
the panel update (or the raised error). -/
def process_MON_VER (sw hw : Option (List Nat)) (exts : List (Option (List Nat))) :
    Except PyError MonVerUpdate := do
  let swb ← pyReplaceNull (getattrD sw (PyVal.pyStr "n/a".data))
  let sw0 ← pyDecodeUtf8 swb
  let sw1 := strReplace "ROM CORE".data "ROM".data sw0
  let sw_version := strReplace "EXT CORE".data "Flash".data sw1
  let hwb ← pyReplaceNull (getattrD hw (PyVal.pyStr "n/a".data))
  let hw_version ← pyDecodeUtf8 hwb
  let e1 ← monVerExtension (exts.getD 0 none)
  let e2 ← monVerExtension (exts.getD 1 none)
  let e3 ← monVerExtension (exts.getD 2 none)
  let e4 ← monVerExtension (exts.getD 3 none)
  let scanned := [e1, e2, e3, e4].foldl scanExtension ("n/a".data, "n/a".data, [])
  pure { swversion := sw_version, hwversion := hw_version,
         fwversion := scanned.1, protocol := scanned.2.1,
         gnsssupported := scanned.2.2 }

/-! ## Dispatch (`UBXHandler.process_data`) -/

/-- The dispatch chain of `process_data`: the sequential identity comparisons
of the source, one handler per known identity (the identities are mutually
exclusive, so the if-chain is a case split); records the handler does not
recognize fall through with no state change.  The `_process_MON_VER` body is
wrapped in `try/except ValueError: pass`, so a `ValueError` there is
swallowed with no state change, while its `TypeError` propagates. -/
def processRecord (s : HState) (r : SemanticRecord) : Except PyError HState :=
  match r with
  | SemanticRecord.ackAck c m => process_ACK_ACK s c m
  | SemanticRecord.ackNak c m => process_ACK_NAK s c m
  | SemanticRecord.cfgMsg c m _ _ _ _ _ => process_CFG_MSG s c m
  | SemanticRecord.cfgPrt baud inp outp => process_CFG_PRT s baud inp outp
  | SemanticRecord.cfgInf => Except.ok s
  | SemanticRecord.navPosLLH itow lat lon h ha va => process_NAV_POSLLH s itow lat lon h ha va
  | SemanticRecord.navPvt itow y mo d hh mi se ft nsv lat lon hm ha va gs hd pd =>
      process_NAV_PVT s itow y mo d hh mi se ft nsv lat lon hm ha va gs hd pd
  | SemanticRecord.navVelned gs hd => process_NAV_VELNED s gs hd
  | SemanticRecord.navSvinfo n sats => process_NAV_SVINFO s n sats
  | SemanticRecord.navSol gf nsv pd => process_NAV_SOL s gf nsv pd
  | SemanticRecord.navDop pd hd vd => process_NAV_DOP s pd hd vd
  | SemanticRecord.monVer sw hw exts =>
      match process_MON_VER sw hw exts with
      | Except.ok _ => Except.ok s
      | Except.error PyError.ValueError => Except.ok s
      | Except.error e => Except.error e
  | SemanticRecord.knownRec _ _ => Except.ok s
  | SemanticRecord.raw _ _ _ => Except.ok s

/-- Source `process_data` after parsing: run the dispatch chain, hand the message to
the console (external), and return the parsed message unchanged. -/
def process_data (s : HState) (r : SemanticRecord) :
    Except PyError (HState × SemanticRecord) :=
  (processRecord s r).map (fun s2 => (s2, r))

/-! ## Outbound frames and the byte-stream scanner -/

/-- Modelled from the spec: the serialized form of a frame — the two preamble
bytes, class, id, the little-endian u16 length, the payload and the two
checksum bytes (pyubx2's `UBXMessage.serialize`, not in `src/`). -/
def serializeFrame (f : Frame) : List Nat :=
  0xB5 :: 0x62 :: f.msgCls :: f.msgId :: (f.payload.length % 256) ::
    (f.payload.length / 256) :: (f.payload ++ [f.ckA, f.ckB])

/-- Modelled from the spec: `UBXMessage(cls, identity, POLL).serialize()` — a
zero-payload poll frame for the given class and id, its checksum computed
over class, id, length and (empty) payload. -/
def buildPoll (c i : Nat) : List Nat :=
  serializeFrame ⟨c, i, [], (ckSum [c, i, 0, 0]).1, (ckSum [c, i, 0, 0]).2⟩

/-- Source `UBXHandler.poll_ubx_config`: the sequence of byte frames written to the
supplied serial sink — one poll per message type in `("CFG-PRT", "MON-VER")`,
in that order (CFG class 0x06, MON class 0x0A). -/
def poll_ubx_config : List (List Nat) :=
  [buildPoll 0x06 0x00, buildPoll 0x0A 0x04]

/-- Modelled from the spec: the frame scanner over a byte stream — locate the
two-byte preamble (resynchronizing byte-by-byte on mismatch), read class, id
and the little-endian length, take that many payload bytes plus the two
checksum bytes, parse the frame, and continue with the remainder; a stream
that ends inside a frame (or inside a header whose first byte is the preamble
start) yields `IncompleteFrame`. -/
def processStream : List Nat → List (Except UBXError SemanticRecord)
  | b :: m :: cls :: mid :: l1 :: l2 :: tail =>
      if b = 0xB5 then
        if m = 0x62 then
          let plen := l1 + 256 * l2
          if plen + 2 ≤ tail.length then
            parseFrame ⟨cls, mid, tail.take plen, tail.getD plen 0, tail.getD (plen + 1) 0⟩
              :: processStream (tail.drop (plen + 2))
          else [Except.error UBXError.IncompleteFrame]
        else processStream (m :: cls :: mid :: l1 :: l2 :: tail)
      else processStream (m :: cls :: mid :: l1 :: l2 :: tail)
  | b :: rest =>
      if b = 0xB5 then [Except.error UBXError.IncompleteFrame]
      else processStream rest
  | [] => []
termination_by bs => bs.length
decreasing_by
  · simp [List.length_drop]
    omega
  · simp
  · simp
  · simp

/-! ## Claim theorems -/

/-- C2.  A SatelliteInfo (NAV-SVINFO) payload whose length is exactly
header-length + count times item-size decodes to a sequence of exactly
`numCh` (svid, elevation, azimuth, carrier-to-noise) tuples; a payload whose
length does not match (a header being present) fails with
`GroupSizeMismatch`, a discriminated result rather than a crash. -/
theorem svinfo_repeating_group :
    (∀ (payload : List Nat) (n : Nat), payload.getD 4 0 = n →
      payload.length = 8 + n * 12 →
      decodeNAVSVINFO payload
        = Except.ok (SemanticRecord.navSvinfo n ((List.range n).map (svinfoItem payload))) ∧
      ((List.range n).map (svinfoItem payload)).length = n) ∧
    (∀ payload : List Nat, 8 ≤ payload.length →
      payload.length ≠ 8 + payload.getD 4 0 * 12 →
      decodeNAVSVINFO payload = Except.error UBXError.GroupSizeMismatch) := by
  constructor
  · intro payload n hn hlen
    subst hn
    refine ⟨?_, by simp⟩
    simp [decodeNAVSVINFO, hlen]
  · intro payload h8 hne
    simp only [List.getD_eq_getElem?_getD] at hne
    simp [decodeNAVSVINFO, h8, hne]

/-- A NAV-SVINFO payload declaring 3 channels and sized for exactly 3
12-byte items. -/
def svinfoPayload3 : List Nat :=
  [0, 0, 0, 0, 3, 0, 0, 0,
   0, 10, 0, 0, 40, 0, 0, 0, 0, 0, 0, 0,
   1, 11, 0, 0, 41, 1, 1, 0, 0, 0, 0, 0,
   2, 12, 0, 0, 42, 2, 2, 0, 0, 0, 0, 0]

/-- A NAV-SVINFO payload declaring 3 channels but sized for only 2 items. -/
def svinfoPayload2 : List Nat :=
  [0, 0, 0, 0, 3, 0, 0, 0,
   0, 10, 0, 0, 40, 0, 0, 0, 0, 0, 0, 0,
   1, 11, 0, 0, 41, 1, 1, 0, 0, 0, 0, 0]

/-- Witness for C2: the exactly-sized payload with count 3 decodes to its
3-element satellite sequence; the payload sized for 2 items with count 3
yields `GroupSizeMismatch`. -/
theorem svinfo_repeating_group_witness :
    decodeNAVSVINFO svinfoPayload3
      = Except.ok (SemanticRecord.navSvinfo 3
          ((List.range 3).map (svinfoItem svinfoPayload3))) ∧
    ((List.range 3).map (svinfoItem svinfoPayload3))
      = [(10, 0, 0, 40), (11, 1, 1, 41), (12, 2, 2, 42)] ∧
    decodeNAVSVINFO svinfoPayload2 = Except.error UBXError.GroupSizeMismatch :=
  ⟨(svinfo_repeating_group.1 svinfoPayload3 3 (by decide) (by decide)).1,
   by decide,
   svinfo_repeating_group.2 svinfoPayload2 (by decide) (by decide)⟩

/-- C10.  `msgclass2bytes` on class and id each in 0..255 returns exactly the
two-byte sequence [class, id], and the mapping is injective there. -/
theorem msgclass2bytes_bytes_injective :
    (∀ c i : Nat, c < 256 → i < 256 → msgclass2bytes c i = Except.ok [c, i]) ∧
    (∀ c1 i1 c2 i2 : Nat, c1 < 256 → i1 < 256 → c2 < 256 → i2 < 256 →
      msgclass2bytes c1 i1 = msgclass2bytes c2 i2 → c1 = c2 ∧ i1 = i2) := by
  constructor
  · intro c i hc hi
    simp [msgclass2bytes, hc, hi]
  · intro c1 i1 c2 i2 h1 h2 h3 h4 heq
    simp [msgclass2bytes, h1, h2, h3, h4] at heq
    exact heq

/-- Witness for C10 at class 5, id 1 (and the trivially discharged equality
between equal calls). -/
theorem msgclass2bytes_bytes_injective_witness :
    msgclass2bytes 5 1 = Except.ok [5, 1] ∧ (5 = 5 ∧ 1 = 1) :=
  ⟨msgclass2bytes_bytes_injective.1 5 1 (by decide) (by decide),
   msgclass2bytes_bytes_injective.2 5 1 5 1 (by decide) (by decide) (by decide)
     (by decide) rfl⟩

/-- C8.  `poll_ubx_config` writes exactly two frames to the serial sink: a
CFG-PRT poll followed by a MON-VER poll, each a zero-payload poll frame
whose stored checksum validates over class, id, length and payload. -/
theorem poll_ubx_config_two_polls :
    poll_ubx_config.length = 2 ∧
    poll_ubx_config.getD 0 []
      = serializeFrame ⟨0x06, 0x00, [], 0x06, 0x18⟩ ∧
    poll_ubx_config.getD 1 []
      = serializeFrame ⟨0x0A, 0x04, [], 0x0E, 0x34⟩ ∧
    Frame.checksumOK ⟨0x06, 0x00, [], 0x06, 0x18⟩ = true ∧
    Frame.checksumOK ⟨0x0A, 0x04, [], 0x0E, 0x34⟩ = true ∧
    lookupIdentity 0x06 0x00 = some "CFG-PRT" ∧
    lookupIdentity 0x0A 0x04 = some "MON-VER" := by
  refine ⟨rfl, by decide, by decide, by decide, by decide, by decide, by decide⟩

/-- C9.  Processing a NAV-SVINFO record resets the satellites-in-view list
and fills it with exactly the first `numCh` tuples of the current message:
the resulting `gsv_data` is `sats.take numCh`, independent of whatever
`gsv_data` held before, and has exactly `numCh` entries whenever the message
supplies them. -/
theorem svinfo_gsv_reset (s : HState) (numCh : Nat)
    (sats : List (Nat × Int × Int × Nat)) (h : numCh ≤ sats.length) :
    processRecord s (SemanticRecord.navSvinfo numCh sats)
      = Except.ok { s with gsv_data := sats.take numCh } ∧
    (sats.take numCh).length = numCh := by
  constructor
  · simp [processRecord, process_NAV_SVINFO, h]
  · simp [List.length_take]
    omega

/-- A handler state carrying one stale satellite entry from a previously
processed message. -/
def staleGsvState : HState :=
  { initState with gsv_data := [(99, 9, 9, 9)] }

/-- Witness for C9 at a concrete state carrying a stale satellite entry: the
stale entry is gone and exactly the one current tuple remains. -/
theorem svinfo_gsv_reset_witness :
    processRecord staleGsvState (SemanticRecord.navSvinfo 1 [(1, 2, 3, 4)])
      = Except.ok { staleGsvState with gsv_data := [(1, 2, 3, 4)].take 1 } ∧
    ([(1, 2, 3, 4)].take 1).length = 1 :=
  svinfo_gsv_reset staleGsvState 1 [(1, 2, 3, 4)] (by decide)

/-- C4.  Position-message processing applies the declared fixed-point
scaling: latitude/longitude divided by 10^7 into degrees, heights and
accuracies (millimeters) divided by 1000 into meters, heading of motion
divided by 10^5, dilution of precision divided by 100 (and PVT ground speed
mm/s divided by 1000); concretely, raw latitude 473397123 decodes to exactly
47.3397123 degrees and raw height 123456 to exactly 123.456 m. -/
theorem position_fixed_point_scaling :
    (∀ (s : HState) (iTOW : Nat) (lat lon hMSL hAcc vAcc : Int),
      processRecord s (SemanticRecord.navPosLLH iTOW lat lon hMSL hAcc vAcc)
        = Except.ok { s with
            utc := itow2utc iTOW,
            lat := (lat : ℚ) / 10 ^ 7, lon := (lon : ℚ) / 10 ^ 7,
            alt := (hMSL : ℚ) / 1000, hacc := (hAcc : ℚ) / 1000,
            vacc := (vAcc : ℚ) / 1000 }) ∧
    (∀ (s : HState) (iTOW y mo d hh mi se ft nsv : Nat)
        (lat lon hMSL hAcc vAcc gSpeed headMot : Int) (pd : Nat),
      processRecord s
          (SemanticRecord.navPvt iTOW y mo d hh mi se ft nsv lat lon hMSL hAcc
            vAcc gSpeed headMot pd)
        = Except.ok { s with
            utc := itow2utc iTOW,
            lat := (lat : ℚ) / 10 ^ 7, lon := (lon : ℚ) / 10 ^ 7,
            alt := (hMSL : ℚ) / 1000, hacc := (hAcc : ℚ) / 1000,
            vacc := (vAcc : ℚ) / 1000, pdop := (pd : ℚ) / 100, sip := nsv,
            speed := (gSpeed : ℚ) / 1000, track := (headMot : ℚ) / 10 ^ 5 }) ∧
    (∀ s : HState,
      processRecord s (SemanticRecord.navPosLLH 0 473397123 0 123456 0 0)
        = Except.ok { s with
            utc := 0, lat := 47.3397123, lon := 0,
            alt := 123.456, hacc := 0, vacc := 0 }) := by
  refine ⟨fun s iTOW lat lon hMSL hAcc vAcc => rfl,
          fun s iTOW y mo d hh mi se ft nsv lat lon hMSL hAcc vAcc gS hM pd => rfl,
          fun s => ?_⟩
  simp only [processRecord, process_NAV_POSLLH, itow2utc]
  norm_num

/-- C5.  A well-formed (checksum-valid) frame whose (class, id) is not in the
identity table decodes without error into a `raw` record carrying the
original payload bytes unchanged, and the dispatch chain passes it through to
the consumer (console and return value) with no state change. -/
theorem unknown_identity_passthrough (f : Frame) (s : HState)
    (hid : lookupIdentity f.msgCls f.msgId = none) (hok : f.checksumOK = true) :
    parseFrame f = Except.ok (SemanticRecord.raw f.msgCls f.msgId f.payload) ∧
    process_data s (SemanticRecord.raw f.msgCls f.msgId f.payload)
      = Except.ok (s, SemanticRecord.raw f.msgCls f.msgId f.payload) := by
  constructor
  · simp [parseFrame, hok, dispatchFrame, hid]
  · rfl

/-- Witness for C5: class 0x02, id 0x13 is not in the identity table; its
valid frame parses to the `raw` record with the (empty) payload unchanged and
passes through. -/
theorem unknown_identity_passthrough_witness :
    parseFrame ⟨0x02, 0x13, [], 21, 65⟩
      = Except.ok (SemanticRecord.raw 0x02 0x13 []) ∧
    process_data initState (SemanticRecord.raw 0x02 0x13 [])
      = Except.ok (initState, SemanticRecord.raw 0x02 0x13 []) :=
  unknown_identity_passthrough ⟨0x02, 0x13, [], 21, 65⟩ initState
    (by decide) (by decide)

/-! ## C6: the handler is not pure — processing mutates its state -/

/-- Helper: `process_ACK_ACK` can only succeed with the state unchanged, and then
succeeds from every state. -/
theorem process_ACK_ACK_ok (s s1 : HState) (c m : Nat)
    (h : process_ACK_ACK s c m = Except.ok s1) :
    s1 = s ∧ ∀ t : HState, process_ACK_ACK t c m = Except.ok t := by
  unfold process_ACK_ACK at h
  cases hk : msgclass2bytes c m with
  | error e => rw [hk] at h; simp at h
  | ok key =>
      rw [hk] at h
      simp only [] at h
      cases hl : tblLookup UBX_MSGIDS key with
      | none => rw [hl] at h; simp at h
      | some nm =>
          rw [hl] at h
          simp at h
          refine ⟨h.symm, fun t => ?_⟩
          unfold process_ACK_ACK
          rw [hk]
          simp only []
          rw [hl]

/-- Helper: `process_ACK_NAK` can only succeed with the state unchanged, and then
succeeds from every state. -/
theorem process_ACK_NAK_ok (s s1 : HState) (c m : Nat)
    (h : process_ACK_NAK s c m = Except.ok s1) :
    s1 = s ∧ ∀ t : HState, process_ACK_NAK t c m = Except.ok t := by
  unfold process_ACK_NAK at h
  cases hk : msgclass2bytes c m with
  | error e => rw [hk] at h; simp at h
  | ok key =>
      rw [hk] at h
      simp only [] at h
      cases hl : tblLookup UBX_MSGIDS key with
      | none => rw [hl] at h; simp at h
      | some nm =>
          rw [hl] at h
          simp at h
          refine ⟨h.symm, fun t => ?_⟩
          unfold process_ACK_NAK
          rw [hk]
          simp only []
          rw [hl]

/-- Helper: `process_CFG_MSG` can only succeed with the state unchanged, and then
succeeds from every state. -/
theorem process_CFG_MSG_ok (s s1 : HState) (c m : Nat)
    (h : process_CFG_MSG s c m = Except.ok s1) :
    s1 = s ∧ ∀ t : HState, process_CFG_MSG t c m = Except.ok t := by
  unfold process_CFG_MSG at h
  cases hk : msgclass2bytes c m with
  | error e => rw [hk] at h; simp at h
  | ok key =>
      rw [hk] at h
      simp only [] at h
      cases hl : tblLookup UBX_CONFIG_MESSAGES key with
      | none => rw [hl] at h; simp at h
      | some nm =>
          rw [hl] at h
          simp at h
          refine ⟨h.symm, fun t => ?_⟩
          unfold process_CFG_MSG
          rw [hk]
          simp only []
          rw [hl]

/-- C6 counterexample.  Decoding is not state-free on the handler: processing
a NAV-PVT record from the freshly initialized handler changes the
decoder-owned mutable field `lat` (and `pdop`, `sip`): the claim that no
decoder-owned position/statistics field is ever changed fails at this
concrete frame. -/
theorem processing_mutates_position_state :
    processRecord initState
        (SemanticRecord.navPvt 0 2020 1 1 0 0 0 3 5 10000000 0 0 0 0 0 0 100)
      = Except.ok { initState with
          utc := 0, lat := 1, lon := 0, alt := 0, hacc := 0, vacc := 0,
          pdop := 1, sip := 5, speed := 0, track := 0 } ∧
    ({ initState with
        utc := 0, lat := 1, lon := 0, alt := 0, hacc := 0, vacc := 0,
        pdop := 1, sip := 5, speed := 0, track := 0 } : HState).lat
      ≠ initState.lat := by
  constructor
  · simp only [processRecord, process_NAV_PVT, itow2utc]
    norm_num
  · show (1 : ℚ) ≠ 0
    norm_num

/-- C6 amended.  The record a frame decodes to depends only on the frame, and
the handler-state mutation is a function of the record alone: processing the
same record a second time changes nothing further (idempotence), and the
record is returned to the consumer unchanged. -/
theorem processing_record_determined :
    (∀ (s s1 : HState) (r : SemanticRecord),
      processRecord s r = Except.ok s1 → processRecord s1 r = Except.ok s1) ∧
    (∀ (s s1 : HState) (r r1 : SemanticRecord),
      process_data s r = Except.ok (s1, r1) → r1 = r) := by
  constructor
  · intro s s1 r h
    cases r with
    | ackAck c m =>
        simp only [processRecord] at h ⊢
        obtain ⟨rfl, hall⟩ := process_ACK_ACK_ok s s1 c m h
        exact hall s1
    | ackNak c m =>
        simp only [processRecord] at h ⊢
        obtain ⟨rfl, hall⟩ := process_ACK_NAK_ok s s1 c m h
        exact hall s1
    | cfgMsg c m r1 r2 r3 r4 r5 =>
        simp only [processRecord] at h ⊢
        obtain ⟨rfl, hall⟩ := process_CFG_MSG_ok s s1 c m h
        exact hall s1
    | cfgPrt baud inp outp =>
        simp only [processRecord, process_CFG_PRT] at h ⊢
        obtain rfl := Except.ok.inj h
        rfl
    | cfgInf =>
        simp only [processRecord] at h ⊢
    | navPosLLH itow lat lon hm ha va =>
        simp only [processRecord, process_NAV_POSLLH] at h ⊢
        obtain rfl := Except.ok.inj h
        rfl
    | navPvt itow y mo d hh mi se ft nsv lat lon hm ha va gs hd pd =>
        simp only [processRecord, process_NAV_PVT] at h ⊢
        obtain rfl := Except.ok.inj h
        rfl
    | navVelned gs hd =>
        simp only [processRecord, process_NAV_VELNED] at h ⊢
        obtain rfl := Except.ok.inj h
        rfl
    | navSvinfo n sats =>
        simp only [processRecord, process_NAV_SVINFO] at h ⊢
        by_cases hn : n ≤ sats.length
        · rw [if_pos hn] at h ⊢
          obtain rfl := Except.ok.inj h
          rfl
        · rw [if_neg hn] at h
          simp at h
    | navSol gf nsv pd =>
        simp only [processRecord, process_NAV_SOL] at h ⊢
        obtain rfl := Except.ok.inj h
        rfl
    | navDop pd hd vd =>
        simp only [processRecord, process_NAV_DOP] at h ⊢
        obtain rfl := Except.ok.inj h
        rfl
    | monVer sw hw exts =>
        simp only [processRecord] at h ⊢
        cases hm : process_MON_VER sw hw exts with
        | ok u => simp only [] at h ⊢
        | error e =>
            rw [hm] at h
            cases e <;> simp only [] at h ⊢ <;> try exact h
    | knownRec nm p =>
        simp only [processRecord] at h ⊢
    | raw c i p =>
        simp only [processRecord] at h ⊢
  · intro s s1 r r1 h
    unfold process_data at h
    cases hp : processRecord s r with
    | ok s2 =>
        rw [hp] at h
        simp only [Except.map] at h
        exact (congrArg Prod.snd (Except.ok.inj h)).symm
    | error e =>
        rw [hp] at h
        simp only [Except.map] at h
        exact absurd h (by simp)

/-- Witness for the amended C6: processing the same CFG-PRT record from the
state it produced changes nothing further, and the record is returned
unchanged. -/
theorem processing_record_determined_witness :
    processRecord { initState with
        ubx_baudrate := 38400, ubx_inprot := 1, ubx_outprot := 3 }
      (SemanticRecord.cfgPrt 38400 [1, 0] [3, 0])
      = Except.ok { initState with
          ubx_baudrate := 38400, ubx_inprot := 1, ubx_outprot := 3 } ∧
    (SemanticRecord.cfgInf = SemanticRecord.cfgInf) :=
  ⟨processing_record_determined.1 initState
      { initState with ubx_baudrate := 38400, ubx_inprot := 1, ubx_outprot := 3 }
      (SemanticRecord.cfgPrt 38400 [1, 0] [3, 0]) rfl,
   processing_record_determined.2 initState initState SemanticRecord.cfgInf
      SemanticRecord.cfgInf rfl ▸ rfl⟩

/-- C7.  MON-VER string fields: present version fields have their null
padding stripped and decode as text (with the cosmetic ROM/Flash renames);
an absent extension entry defaults to the empty string; but an absent
swVersion/hwVersion hits the `getattr(..., "n/a")` default of type `str`,
on which the code then calls `bytes`-replace, raising an uncaught
`TypeError` instead of producing the documented "n/a" — the error escapes
`process_data` through the dispatch chain. -/
theorem monver_null_strip_and_absent_default :
    process_MON_VER (some (("ROM CORE 3.01".data.map Char.toNat) ++ [0, 0, 0]))
        (some (("00080000".data.map Char.toNat) ++ [0, 0]))
        [some (("FWVER=SPG 3.01".data.map Char.toNat) ++ [0, 0]), none, none, none]
      = Except.ok { swversion := "ROM 3.01".data, hwversion := "00080000".data,
                    fwversion := "SPG 3.01".data, protocol := "n/a".data,
                    gnsssupported := [] } ∧
    monVerExtension none = Except.ok [] ∧
    process_MON_VER none (some ("00080000".data.map Char.toNat)) []
      = Except.error PyError.TypeError ∧
    processRecord initState
        (SemanticRecord.monVer none (some ("00080000".data.map Char.toNat)) [])
      = Except.error PyError.TypeError :=
  ⟨rfl, rfl, rfl, rfl⟩

/-! ## C3: stream scanning over malformed input -/

/-- A byte that is not the first preamble byte is skipped: scanning
resynchronizes byte-by-byte. -/
theorem processStream_skip (b : Nat) (rest : List Nat) (h : b ≠ 0xB5) :
    processStream (b :: rest) = processStream rest := by
  rcases rest with _ | ⟨m, _ | ⟨c, _ | ⟨d, _ | ⟨e, _ | ⟨g, tail⟩⟩⟩⟩⟩ <;>
    simp [processStream, h]

/-- The unfolding equation of `processStream` on a stream long enough to hold
a header. -/
theorem processStream_cons7 (b m cls mid l1 l2 : Nat) (tail : List Nat) :
    processStream (b :: m :: cls :: mid :: l1 :: l2 :: tail)
      = if b = 0xB5 then
          if m = 0x62 then
            if l1 + 256 * l2 + 2 ≤ tail.length then
              parseFrame ⟨cls, mid, tail.take (l1 + 256 * l2),
                  tail.getD (l1 + 256 * l2) 0, tail.getD (l1 + 256 * l2 + 1) 0⟩
                :: processStream (tail.drop (l1 + 256 * l2 + 2))
            else [Except.error UBXError.IncompleteFrame]
          else processStream (m :: cls :: mid :: l1 :: l2 :: tail)
        else processStream (m :: cls :: mid :: l1 :: l2 :: tail) := by
  rw [processStream]

/-- Leading garbage containing no preamble start byte is skipped entirely:
scanning continues with whatever follows. -/
theorem processStream_junk (junk s : List Nat) (h : ∀ b ∈ junk, b ≠ 0xB5) :
    processStream (junk ++ s) = processStream s := by
  induction junk with
  | nil => rfl
  | cons b rest ih =>
      rw [List.cons_append, processStream_skip b _ (h b (by simp)),
        ih (fun x hx => h x (by simp [hx]))]

/-- A serialized frame at the head of the stream is consumed whole: its parse
result is emitted and scanning continues with the rest of the stream. -/
theorem processStream_frame (f : Frame) (rest : List Nat) :
    processStream (serializeFrame f ++ rest) = parseFrame f :: processStream rest := by
  have hplen : f.payload.length % 256 + 256 * (f.payload.length / 256)
      = f.payload.length := by omega
  have hser : serializeFrame f ++ rest
      = 0xB5 :: 0x62 :: f.msgCls :: f.msgId :: (f.payload.length % 256) ::
        (f.payload.length / 256) :: (f.payload ++ ([f.ckA, f.ckB] ++ rest)) := by
    simp [serializeFrame]
  rw [hser, processStream_cons7, if_pos rfl, if_pos rfl, hplen]
  rw [if_pos (by simp [List.length_append])]
  have htake : (f.payload ++ ([f.ckA, f.ckB] ++ rest)).take f.payload.length
      = f.payload := List.take_left _ _
  have hgd0 : (f.payload ++ ([f.ckA, f.ckB] ++ rest)).getD f.payload.length 0
      = f.ckA := by
    rw [List.getD_append_right _ _ _ _ (le_refl _)]
    simp
  have hgd1 : (f.payload ++ ([f.ckA, f.ckB] ++ rest)).getD (f.payload.length + 1) 0
      = f.ckB := by
    rw [List.getD_append_right _ _ _ _ (by omega)]
    simp
  have hdrop : (f.payload ++ ([f.ckA, f.ckB] ++ rest)).drop (f.payload.length + 2)
      = rest := by
    rw [List.drop_append 2]
    rfl
  rw [htake, hgd0, hgd1, hdrop]

/-- C3.  Malformed input never crashes the scanner, which returns
discriminated results and continues with the next frame: leading garbage
(containing no preamble start) is skipped; a frame failing the checksum
contributes `ChecksumError` and scanning continues with the remaining
stream; and in general every serialized frame contributes exactly its parse
result — potentially a `GroupSizeMismatch` or other discriminated decode
error — followed by the processing of the rest of the stream. -/
theorem malformed_input_discriminated :
    (∀ junk s : List Nat, (∀ b ∈ junk, b ≠ 0xB5) →
      processStream (junk ++ s) = processStream s) ∧
    (∀ (f : Frame) (rest : List Nat), f.checksumOK = false →
      processStream (serializeFrame f ++ rest)
        = Except.error UBXError.ChecksumError :: processStream rest) ∧
    (∀ (f : Frame) (rest : List Nat),
      processStream (serializeFrame f ++ rest) = parseFrame f :: processStream rest) := by
  refine ⟨processStream_junk, fun f rest hbad => ?_, processStream_frame⟩
  rw [processStream_frame]
  simp [parseFrame, hbad]

/-- Witness for C3: garbage bytes, then a corrupted frame, then a valid
frame: the stream yields exactly a `ChecksumError` and the valid frame's
record, and never crashes. -/
theorem malformed_input_discriminated_witness :
    processStream ([1, 2, 3] ++ (serializeFrame ⟨1, 2, [5], 9, 22⟩
        ++ (serializeFrame ⟨1, 2, [5], 9, 21⟩ ++ [])))
      = [Except.error UBXError.ChecksumError,
         Except.ok (SemanticRecord.knownRec "NAV-POSLLH" [5])] := by
  rw [malformed_input_discriminated.1 [1, 2, 3] _ (by decide),
    malformed_input_discriminated.2.1 ⟨1, 2, [5], 9, 22⟩ _ (by decide),
    malformed_input_discriminated.2.2 ⟨1, 2, [5], 9, 21⟩ []]
  simp [processStream]
  rfl

end PyGPSClient
